import Mathlib

/-!
Verification development for MainCode/camera_manager.py of the
FalconiaCodeThing repository.

The file shallowly embeds the camera-manager module: camera-backend
detection, the two GStreamer pipeline builders, the CameraManager
start/stop/terminate operations, and the watchdog loop.  External
state (the executable search path, /dev/video* nodes, process
aliveness) is modelled explicitly.  For the claim about stop/watchdog
interleavings, the two threads are modelled as a small-step transition
system over the shared state they both touch.
-/

namespace Falconia

/-! ## Constants (camera_manager.py, lines 43-52) -/

def DEFAULT_WIDTH : Nat := 1280
def DEFAULT_HEIGHT : Nat := 720
def DEFAULT_FPS : Nat := 30
def DEFAULT_BITRATE : Nat := 500
def DEFAULT_PORT : Nat := 5000
def DEFAULT_HOST : String := "127.0.0.1"

/-- Seconds to wait before retrying after a pipeline crash (source: 3.0). -/
def RECONNECT_DELAY : Nat := 3

def MAX_RECONNECT_ATTEMPTS : Nat := 5

/-! ## Camera type enumeration (lines 59-63) -/

inductive CameraType where
  | PI_CAMERA
  | USB_CAMERA
  | NONE
  deriving DecidableEq, Repr

/-! ## The external environment seen by the detection helpers.

`pathCmds` models the set of executables found on the search path
(`shutil.which cmd` succeeds exactly when `cmd` is listed), and
`videoDevices` models the sorted list of character-special
`/dev/video*` nodes returned by `_find_video_devices`. -/

structure Env where
  pathCmds : List String
  videoDevices : List String
  deriving DecidableEq, Repr

/-- Model of `shutil.which(cmd) is not None`. -/
def which (env : Env) (cmd : String) : Bool :=
  env.pathCmds.contains cmd

/-- Model of `_find_video_devices` (line 70): the char-special video nodes. -/
def find_video_devices (env : Env) : List String :=
  env.videoDevices

/-- `_get_rpicam_command` (lines 76-85): prefer rpicam-vid, fall back to
libcamera-vid, None when neither is on the path. -/
def get_rpicam_command (env : Env) : Option String :=
  if which env "rpicam-vid" then some "rpicam-vid"
  else if which env "libcamera-vid" then some "libcamera-vid"
  else none

/-- `_is_libcamera_available` (lines 88-90). -/
def is_libcamera_available (env : Env) : Bool :=
  (get_rpicam_command env).isSome

/-- `_has_usb_camera` (lines 93-95): at least one V4L2 device exists. -/
def has_usb_camera (env : Env) : Bool :=
  decide (0 < (find_video_devices env).length)

/-- `detect_camera_type` (lines 98-114). -/
def detect_camera_type (env : Env) : CameraType :=
  if is_libcamera_available env then CameraType.PI_CAMERA
  else if has_usb_camera env then CameraType.USB_CAMERA
  else CameraType.NONE

/-! ## Pipeline builders (lines 121-218) -/

/-- `build_picamera_pipeline` (lines 121-175).  Returns the two-stage
pipeline `[libcamera_cmd, gst_cmd]`, or the `RuntimeError` message when
neither Pi-camera CLI is on the search path. -/
def build_picamera_pipeline (env : Env) (target_ip : String)
    (target_port width height fps : Nat) :
    Except String (List (List String)) :=
  match get_rpicam_command env with
  | none =>
      Except.error
        ("Neither rpicam-vid nor libcamera-vid found on $PATH. " ++
          "Install with: sudo apt install rpicam-apps")
  | some rpicam_cmd =>
      Except.ok
        [[rpicam_cmd,
          "-t", "0",
          "--width", toString width,
          "--height", toString height,
          "--framerate", toString fps,
          "--inline",
          "-n",
          "--codec", "h264",
          "--output", "-"],
         ["gst-launch-1.0", "-e",
          "fdsrc",
          "!",
          "h264parse",
          "!",
          "rtph264pay", "config-interval=1", "pt=96",
          "!",
          "udpsink", "host=" ++ target_ip, "port=" ++ toString target_port]]

/-- `build_usb_camera_pipeline` (lines 178-218).  The source performs no
availability check: it unconditionally returns the gst-launch-1.0
command list. -/
def build_usb_camera_pipeline (target_ip : String) (target_port : Nat)
    (device : String) (width height fps bitrate : Nat) : List String :=
  ["gst-launch-1.0", "-e",
   "v4l2src", "device=" ++ device,
   "!",
   "video/x-raw,width=" ++ toString width ++ ",height=" ++ toString height ++
     ",framerate=" ++ toString fps ++ "/1",
   "!",
   "videoconvert",
   "!",
   "x264enc",
   "bitrate=" ++ toString bitrate,
   "tune=zerolatency",
   "speed-preset=superfast",
   "!",
   "rtph264pay", "config-interval=1", "pt=96",
   "!",
   "udpsink", "host=" ++ target_ip, "port=" ++ toString target_port]

/-! ## Process handles and the observable world.

A `PHandle` models a `subprocess.Popen` handle: its pid, the command it
runs, and how the underlying process responds to signals
(`exitsOnSigint`: exits within the 3-second grace wait after SIGINT;
`exitsOnKill`: exits within the 2-second wait after SIGKILL).  Process
aliveness is tracked by a `dead` set of pids: `poll() is None`
exactly when the pid is not in `dead`. -/

structure PHandle where
  pid : Nat
  cmd : List String
  exitsOnSigint : Bool
  exitsOnKill : Bool
  deriving DecidableEq, Repr

/-- Observable actions taken by `stop_stream` / `_terminate_processes`:
signals sent, bounded waits (with their timeout in seconds), the bounded
watchdog join, and the final log line. -/
inductive Event where
  | setStopEvent
  | sigint (pid : Nat)
  | waitGrace (pid timeout : Nat)
  | kill (pid : Nat)
  | waitKill (pid timeout : Nat)
  | joinWatchdog (timeout : Nat)
  | logStopped
  deriving DecidableEq, Repr

/-- Result of `_terminate_processes`: whether it returned normally
(`ok = false` models the uncaught `TimeoutExpired` raised by the second
`proc.wait(timeout=2)` when a process survives SIGKILL), the updated dead
set, and the trace of actions performed. -/
structure TermResult where
  ok : Bool
  dead : List Nat
  trace : List Event
  deriving DecidableEq, Repr

/-- `CameraManager._terminate_processes` (lines 378-389): iterate over the
process list in launch order; skip handles that already exited; SIGINT and
wait up to 3 s; on timeout (or OSError) SIGKILL and wait up to 2 s; a
process surviving the kill makes the second wait raise, aborting the loop
(so later handles are not processed and the list is not cleared). -/
def terminate_processes (dead : List Nat) : List PHandle → TermResult
  | [] => ⟨true, dead, []⟩
  | p :: ps =>
      if p.pid ∈ dead then terminate_processes dead ps
      else if p.exitsOnSigint then
        let r := terminate_processes (p.pid :: dead) ps
        ⟨r.ok, r.dead, [Event.sigint p.pid, Event.waitGrace p.pid 3] ++ r.trace⟩
      else if p.exitsOnKill then
        let r := terminate_processes (p.pid :: dead) ps
        ⟨r.ok, r.dead,
          [Event.sigint p.pid, Event.waitGrace p.pid 3,
            Event.kill p.pid, Event.waitKill p.pid 2] ++ r.trace⟩
      else
        ⟨false, dead,
          [Event.sigint p.pid, Event.waitGrace p.pid 3,
            Event.kill p.pid, Event.waitKill p.pid 2]⟩

/-- The per-handle action ladder of `_terminate_processes`, used to state
what the termination trace looks like: nothing for an already-dead handle;
SIGINT plus a 3-second bounded wait for a live one; the SIGKILL escalation
with its 2-second bounded wait only when the grace wait fails. -/
def termEventsFor (dead : List Nat) (p : PHandle) : List Event :=
  if p.pid ∈ dead then []
  else
    [Event.sigint p.pid, Event.waitGrace p.pid 3] ++
      (if p.exitsOnSigint then []
        else [Event.kill p.pid, Event.waitKill p.pid 2])

/-- The world outside the CameraManager: the search-path/device
environment, the pid counter for fresh processes, the set of dead pids,
and, per future pid, how the spawned process will respond to signals. -/
structure World where
  env : Env
  nextPid : Nat
  dead : List Nat
  sigintOk : Nat → Bool
  killOk : Nat → Bool

/-- `subprocess.Popen`: a fresh handle with the next pid. -/
def spawn (w : World) (cmd : List String) : PHandle × World :=
  (⟨w.nextPid, cmd, w.sigintOk w.nextPid, w.killOk w.nextPid⟩,
    {w with nextPid := w.nextPid + 1})

/-- The mutable fields of `CameraManager` (lines 244-272) together with its
configuration.  `watchdogRunning` models `_watchdog_thread is not None`. -/
structure CameraManager where
  target_ip : String
  target_port : Nat
  device : String
  width : Nat
  height : Nat
  fps : Nat
  bitrate : Nat
  auto_reconnect : Bool
  camera_type : CameraType
  processes : List PHandle
  watchdogRunning : Bool
  stopEvent : Bool
  reconnect_attempts : Nat
  deriving Repr

/-- `CameraManager.__init__` (lines 244-272): detect the camera type when
no override is given; empty process list, no watchdog, cleared state. -/
def makeManager (env : Env) (target_ip : String) (target_port : Nat)
    (camera_type : Option CameraType) (device : String)
    (width height fps bitrate : Nat) (auto_reconnect : Bool) :
    CameraManager :=
  { target_ip := target_ip
    target_port := target_port
    device := device
    width := width
    height := height
    fps := fps
    bitrate := bitrate
    auto_reconnect := auto_reconnect
    camera_type := camera_type.getD (detect_camera_type env)
    processes := []
    watchdogRunning := false
    stopEvent := false
    reconnect_attempts := 0 }

/-- `CameraManager.is_streaming` (lines 278-281): some pipeline process is
alive. -/
def is_streaming (w : World) (m : CameraManager) : Bool :=
  m.processes.any (fun p => !(w.dead.contains p.pid))

/-- `CameraManager._launch_pipeline` (lines 341-376): terminate any current
processes, then build and spawn the stage processes for the camera type.
Errors (a raise propagating out) carry the manager/world state left behind
by the partially executed method. -/
def launch_pipeline (m : CameraManager) (w : World) :
    Except (String × CameraManager × World) (CameraManager × World) :=
  let r := terminate_processes w.dead m.processes
  let w1 := {w with dead := r.dead}
  if r.ok then
    let m1 := {m with processes := []}
    match m.camera_type with
    | CameraType.PI_CAMERA =>
        match build_picamera_pipeline w.env m.target_ip m.target_port
            m.width m.height m.fps with
        | Except.error msg => Except.error (msg, m1, w1)
        | Except.ok stages =>
            let (p1, w2) := spawn w1 (stages.getD 0 [])
            let (p2, w3) := spawn w2 (stages.getD 1 [])
            Except.ok ({m1 with processes := [p1, p2]}, w3)
    | CameraType.USB_CAMERA =>
        let cmd := build_usb_camera_pipeline m.target_ip m.target_port
          m.device m.width m.height m.fps m.bitrate
        let (p, w2) := spawn w1 cmd
        Except.ok ({m1 with processes := [p]}, w2)
    | CameraType.NONE =>
        Except.error ("Unsupported camera type: CameraType.NONE", m1, w1)
  else
    Except.error ("terminate wait timed out", m, w1)

/-- Log messages issued by `start_stream`. -/
inductive LogMsg where
  | warnAlreadyRunning
  | infoStreaming
  deriving DecidableEq, Repr

/-- `CameraManager.start_stream` (lines 283-318): warn and return if
already streaming; raise if no camera backend; otherwise clear the stop
event, reset the reconnect counter, launch the pipeline and start the
watchdog thread. -/
def start_stream (m : CameraManager) (w : World) :
    Except (String × CameraManager × World) (CameraManager × World) ×
      List LogMsg :=
  if is_streaming w m then (Except.ok (m, w), [LogMsg.warnAlreadyRunning])
  else if m.camera_type = CameraType.NONE then
    (Except.error
      ("No camera detected. Attach a USB webcam or enable the Pi Camera.",
        m, w), [])
  else
    let m1 := {m with stopEvent := false, reconnect_attempts := 0}
    match launch_pipeline m1 w with
    | Except.error e => (Except.error e, [])
    | Except.ok (m2, w2) =>
        (Except.ok ({m2 with watchdogRunning := true}, w2),
          [LogMsg.infoStreaming])

/-- `CameraManager.stop_stream` (lines 320-329): set the stop event,
terminate the pipeline processes, then join the watchdog thread with a
bounded 5-second timeout.  A `TimeoutExpired` raised inside
`_terminate_processes` propagates (error case), leaving the process list
uncleared and the watchdog not joined. -/
def stop_stream (m : CameraManager) (w : World) :
    Except (CameraManager × World) (CameraManager × World) × List Event :=
  let m1 := {m with stopEvent := true}
  let r := terminate_processes w.dead m1.processes
  let w1 := {w with dead := r.dead}
  if r.ok then
    let m2 := {m1 with processes := []}
    if m2.watchdogRunning then
      (Except.ok ({m2 with watchdogRunning := false}, w1),
        [Event.setStopEvent] ++ r.trace ++
          [Event.joinWatchdog 5, Event.logStopped])
    else
      (Except.ok (m2, w1),
        [Event.setStopEvent] ++ r.trace ++ [Event.logStopped])
  else
    (Except.error (m1, w1), [Event.setStopEvent] ++ r.trace)

/-! ## The watchdog loop as a sequential function of its observations.

`_watchdog` (lines 391-435) is a poll loop.  One `Obs` records what one
iteration observes: whether the stop event was set at the top of the loop,
whether it was set right after the 1-second sleep, and whether the
pipeline processes were still alive at the `is_streaming` check.  The
relaunch itself is `try`-guarded in the source, so its success or failure
does not influence the loop. -/

structure Obs where
  stopAtTop : Bool
  stopAfterSleep : Bool
  streaming : Bool
  deriving DecidableEq, Repr

/-- Why the watchdog loop ended. -/
inductive WdExit where
  | stopRequested
  | reconnectDisabled
  | exhausted
  deriving DecidableEq, Repr

/-- The watchdog's own mutable state: the reconnect-attempt counter
(`self._reconnect_attempts`) and, for bookkeeping in the claims, how many
relaunches it has asked the supervisor for. -/
structure WdState where
  attempts : Nat
  relaunches : Nat
  deriving DecidableEq, Repr

/-- `CameraManager._watchdog` (lines 391-435), one recursion step per loop
iteration: break on the stop event (checked at the loop top and again
after the poll sleep); do nothing while streaming; on a dead pipeline,
give up if auto-reconnect is off; increment the attempt counter, give up
once it exceeds MAX_RECONNECT_ATTEMPTS, and otherwise sleep the reconnect
delay and relaunch.  Nothing ever resets the counter. -/
def watchdog_run (autoRec : Bool) (s : WdState) :
    List Obs → WdState × Option WdExit
  | [] => (s, none)
  | o :: rest =>
      if o.stopAtTop then (s, some WdExit.stopRequested)
      else if o.stopAfterSleep then (s, some WdExit.stopRequested)
      else if o.streaming then watchdog_run autoRec s rest
      else if !autoRec then (s, some WdExit.reconnectDisabled)
      else if MAX_RECONNECT_ATTEMPTS < s.attempts + 1 then
        ({s with attempts := s.attempts + 1}, some WdExit.exhausted)
      else watchdog_run autoRec ⟨s.attempts + 1, s.relaunches + 1⟩ rest

/-! ## Interleavings of `stop_stream` with the watchdog thread.

The two threads share the process list (`self._processes`), the dead-pid
set (the OS view each `poll()` consults) and the stop event.  `Conf` is
one configuration of the whole system; `Step` is its small-step
transition relation: one constructor per statement of either thread that
touches shared state, plus an environment step letting any process die.
The watchdog's relaunch is split into its terminate half (which runs
`_terminate_processes` on the current list) and its spawn half, which
installs a list of fresh handles; the spawn half is over-approximated by
allowing an arbitrary new list, which covers both camera types as well as
a failed build (the `try` in the source swallows the error, leaving the
cleared list in place). -/

/-- Control location of the caller's thread while it runs `stop_stream`. -/
inductive MLoc where
  | atStart
  | atSnap
  | atLoop (i : Nat)
  | atClear
  | atJoin
  | finished
  | failed
  deriving DecidableEq, Repr

/-- Control location of the watchdog thread (`_watchdog`, lines 391-435):
`top` before the loop-top stop check, `slept` after the 1-second poll
sleep, `checkStream` before the `is_streaming` check, `backoff` while
sleeping the reconnect delay, then the two halves of the relaunch. -/
inductive WLoc where
  | top
  | slept
  | checkStream
  | backoff
  | launchTerm
  | launchSpawn
  | finished
  deriving DecidableEq, Repr

/-- A configuration of the two-thread system: the shared state (`handles`,
`dead`, `stopEvent`), the caller's loop snapshot of the handle list (the
`for` iterator of `_terminate_processes`), the watchdog's attempt counter,
the auto-reconnect flag, and both control locations. -/
structure Conf where
  handles : List PHandle
  dead : List Nat
  stopEvent : Bool
  snapshot : List PHandle
  attempts : Nat
  autoRec : Bool
  mainLoc : MLoc
  wdLoc : WLoc
  deriving Repr

/-- `is_streaming` as the watchdog reads it from the shared state. -/
def streamingB (c : Conf) : Bool :=
  c.handles.any (fun p => !(c.dead.contains p.pid))

/-- One atomic step of either thread, or of the environment. -/
inductive Step : Conf → Conf → Prop where
  | mSet (c : Conf) :
      c.mainLoc = MLoc.atStart →
      Step c {c with stopEvent := true, mainLoc := MLoc.atSnap}
  | mSnap (c : Conf) :
      c.mainLoc = MLoc.atSnap →
      Step c {c with snapshot := c.handles, mainLoc := MLoc.atLoop 0}
  | mSkip (c : Conf) (i : Nat) (hi : i < c.snapshot.length) :
      c.mainLoc = MLoc.atLoop i →
      (c.snapshot.get ⟨i, hi⟩).pid ∈ c.dead →
      Step c {c with mainLoc := MLoc.atLoop (i + 1)}
  | mTermSig (c : Conf) (i : Nat) (hi : i < c.snapshot.length) :
      c.mainLoc = MLoc.atLoop i →
      (c.snapshot.get ⟨i, hi⟩).pid ∉ c.dead →
      (c.snapshot.get ⟨i, hi⟩).exitsOnSigint = true →
      Step c {c with
        dead := (c.snapshot.get ⟨i, hi⟩).pid :: c.dead
        mainLoc := MLoc.atLoop (i + 1)}
  | mTermKill (c : Conf) (i : Nat) (hi : i < c.snapshot.length) :
      c.mainLoc = MLoc.atLoop i →
      (c.snapshot.get ⟨i, hi⟩).pid ∉ c.dead →
      (c.snapshot.get ⟨i, hi⟩).exitsOnSigint = false →
      (c.snapshot.get ⟨i, hi⟩).exitsOnKill = true →
      Step c {c with
        dead := (c.snapshot.get ⟨i, hi⟩).pid :: c.dead
        mainLoc := MLoc.atLoop (i + 1)}
  | mTermFail (c : Conf) (i : Nat) (hi : i < c.snapshot.length) :
      c.mainLoc = MLoc.atLoop i →
      (c.snapshot.get ⟨i, hi⟩).pid ∉ c.dead →
      (c.snapshot.get ⟨i, hi⟩).exitsOnSigint = false →
      (c.snapshot.get ⟨i, hi⟩).exitsOnKill = false →
      Step c {c with mainLoc := MLoc.failed}
  | mLoopDone (c : Conf) (i : Nat) :
      c.mainLoc = MLoc.atLoop i →
      c.snapshot.length ≤ i →
      Step c {c with mainLoc := MLoc.atClear}
  | mClear (c : Conf) :
      c.mainLoc = MLoc.atClear →
      Step c {c with handles := [], mainLoc := MLoc.atJoin}
  | mJoin (c : Conf) :
      c.mainLoc = MLoc.atJoin →
      Step c {c with mainLoc := MLoc.finished}
  | wTopStop (c : Conf) :
      c.wdLoc = WLoc.top → c.stopEvent = true →
      Step c {c with wdLoc := WLoc.finished}
  | wTopSleep (c : Conf) :
      c.wdLoc = WLoc.top → c.stopEvent = false →
      Step c {c with wdLoc := WLoc.slept}
  | wSleptStop (c : Conf) :
      c.wdLoc = WLoc.slept → c.stopEvent = true →
      Step c {c with wdLoc := WLoc.finished}
  | wSleptGo (c : Conf) :
      c.wdLoc = WLoc.slept → c.stopEvent = false →
      Step c {c with wdLoc := WLoc.checkStream}
  | wAlive (c : Conf) :
      c.wdLoc = WLoc.checkStream → streamingB c = true →
      Step c {c with wdLoc := WLoc.top}
  | wDeadNoRec (c : Conf) :
      c.wdLoc = WLoc.checkStream → streamingB c = false →
      c.autoRec = false →
      Step c {c with wdLoc := WLoc.finished}
  | wDeadExceed (c : Conf) :
      c.wdLoc = WLoc.checkStream → streamingB c = false →
      c.autoRec = true → MAX_RECONNECT_ATTEMPTS < c.attempts + 1 →
      Step c {c with attempts := c.attempts + 1, wdLoc := WLoc.finished}
  | wDeadRetry (c : Conf) :
      c.wdLoc = WLoc.checkStream → streamingB c = false →
      c.autoRec = true → c.attempts + 1 ≤ MAX_RECONNECT_ATTEMPTS →
      Step c {c with attempts := c.attempts + 1, wdLoc := WLoc.backoff}
  | wWake (c : Conf) :
      c.wdLoc = WLoc.backoff →
      Step c {c with wdLoc := WLoc.launchTerm}
  | wLaunchTermOk (c : Conf) :
      c.wdLoc = WLoc.launchTerm →
      (terminate_processes c.dead c.handles).ok = true →
      Step c {c with
        dead := (terminate_processes c.dead c.handles).dead
        handles := []
        wdLoc := WLoc.launchSpawn}
  | wLaunchTermFail (c : Conf) :
      c.wdLoc = WLoc.launchTerm →
      (terminate_processes c.dead c.handles).ok = false →
      Step c {c with
        dead := (terminate_processes c.dead c.handles).dead
        wdLoc := WLoc.top}
  | wSpawn (c : Conf) (hs : List PHandle) :
      c.wdLoc = WLoc.launchSpawn →
      Step c {c with handles := hs, wdLoc := WLoc.top}
  | envDie (c : Conf) (q : Nat) :
      Step c {c with dead := q :: c.dead}

/-- Where the caller's thread keeps track of a given pre-call handle `p`:
before the snapshot it is in the shared list, during the loop it is in the
not-yet-processed part of the snapshot, and from `atClear` on it must be
dead.  (A raise — `failed` — aborts `stop_stream` without returning.) -/
def mainTracks (p : PHandle) (c : Conf) : Prop :=
  match c.mainLoc with
  | MLoc.atStart => p.pid ∈ c.dead ∨ p ∈ c.handles
  | MLoc.atSnap => p.pid ∈ c.dead ∨ p ∈ c.handles
  | MLoc.atLoop i => p.pid ∈ c.dead ∨ p ∈ c.snapshot.drop i
  | MLoc.atClear => p.pid ∈ c.dead
  | MLoc.atJoin => p.pid ∈ c.dead
  | MLoc.finished => p.pid ∈ c.dead
  | MLoc.failed => True

/-- The inductive invariant for the stop/watchdog interleaving claim: the
watchdog's spawn half only ever runs on the already-cleared list, and the
caller's thread tracks the handle `p` as in `mainTracks`. -/
def StopInv (p : PHandle) (c : Conf) : Prop :=
  (c.wdLoc = WLoc.launchSpawn → c.handles = []) ∧ mainTracks p c

/-! ## Helper lemmas about `terminate_processes` -/

/-- The dead set only grows across a termination pass. -/
theorem terminate_dead_mono (x : Nat) :
    ∀ (ps : List PHandle) (dead : List Nat), x ∈ dead →
      x ∈ (terminate_processes dead ps).dead := by
  intro ps
  induction ps with
  | nil => intro dead hx; simpa [terminate_processes] using hx
  | cons p ps ih =>
      intro dead hx
      by_cases hd : p.pid ∈ dead
      · simpa [terminate_processes, hd] using ih dead hx
      · cases hsig : p.exitsOnSigint
        · cases hkill : p.exitsOnKill
          · simpa [terminate_processes, hd, hsig, hkill] using hx
          · simpa [terminate_processes, hd, hsig, hkill] using
              ih (p.pid :: dead) (List.mem_cons_of_mem _ hx)
        · simpa [terminate_processes, hd, hsig] using
            ih (p.pid :: dead) (List.mem_cons_of_mem _ hx)

/-- When a termination pass returns normally, every handle it iterated
over is dead afterwards. -/
theorem terminate_complete :
    ∀ (ps : List PHandle) (dead : List Nat),
      (terminate_processes dead ps).ok = true →
      ∀ p ∈ ps, p.pid ∈ (terminate_processes dead ps).dead := by
  intro ps
  induction ps with
  | nil => intro dead _ p hp; cases hp
  | cons q ps ih =>
      intro dead hok p hp
      by_cases hd : q.pid ∈ dead
      · rcases List.mem_cons.mp hp with hpq | hps
        · subst hpq
          simpa [terminate_processes, hd] using
            terminate_dead_mono p.pid ps dead hd
        · simpa [terminate_processes, hd] using
            ih dead (by simpa [terminate_processes, hd] using hok) p hps
      · cases hsig : q.exitsOnSigint
        · cases hkill : q.exitsOnKill
          · simp [terminate_processes, hd, hsig, hkill] at hok
          · have hok' : (terminate_processes (q.pid :: dead) ps).ok = true := by
              simpa [terminate_processes, hd, hsig, hkill] using hok
            rcases List.mem_cons.mp hp with hpq | hps
            · subst hpq
              simpa [terminate_processes, hd, hsig, hkill] using
                terminate_dead_mono p.pid ps (p.pid :: dead)
                  (List.mem_cons_self _ _)
            · simpa [terminate_processes, hd, hsig, hkill] using
                ih (q.pid :: dead) hok' p hps
        · have hok' : (terminate_processes (q.pid :: dead) ps).ok = true := by
            simpa [terminate_processes, hd, hsig] using hok
          rcases List.mem_cons.mp hp with hpq | hps
          · subst hpq
            simpa [terminate_processes, hd, hsig] using
              terminate_dead_mono p.pid ps (p.pid :: dead)
                (List.mem_cons_self _ _)
          · simpa [terminate_processes, hd, hsig] using
              ih (q.pid :: dead) hok' p hps

/-- A pid freshly added to the dead set does not change the action ladder
of a handle with a different pid. -/
theorem termEventsFor_cons_ne (x : Nat) (dead : List Nat) (q : PHandle)
    (h : q.pid ≠ x) : termEventsFor (x :: dead) q = termEventsFor dead q := by
  simp [termEventsFor, List.mem_cons, h]

/-- Lifting of `termEventsFor_cons_ne` over a handle list avoiding `x`. -/
theorem flatMap_termEventsFor_cons (x : Nat) :
    ∀ (ps : List PHandle) (dead : List Nat), x ∉ ps.map PHandle.pid →
      ps.flatMap (termEventsFor (x :: dead)) =
        ps.flatMap (termEventsFor dead) := by
  intro ps
  induction ps with
  | nil => intro dead _; rfl
  | cons q ps ih =>
      intro dead hx
      rw [List.map_cons] at hx
      have hq : q.pid ≠ x := fun he => hx (by simp [he])
      have hps : x ∉ ps.map PHandle.pid := fun hm => hx (by simp [hm])
      simp [List.flatMap_cons, termEventsFor_cons_ne x dead q hq, ih dead hps]

/-! ## Claims about detection and the builders -/

/-- C4: `detect_camera_type` returns PI_CAMERA exactly when a Pi-camera CLI
(rpicam-vid or libcamera-vid) is on the executable search path, regardless
of device nodes; USB_CAMERA exactly when that probe fails and at least one
video device node exists; NONE otherwise. -/
theorem C4_detect_camera_type_cases (env : Env) :
    (detect_camera_type env = CameraType.PI_CAMERA ↔
      (which env "rpicam-vid" = true ∨ which env "libcamera-vid" = true)) ∧
    (detect_camera_type env = CameraType.USB_CAMERA ↔
      (which env "rpicam-vid" = false ∧ which env "libcamera-vid" = false ∧
        env.videoDevices ≠ [])) ∧
    (detect_camera_type env = CameraType.NONE ↔
      (which env "rpicam-vid" = false ∧ which env "libcamera-vid" = false ∧
        env.videoDevices = [])) := by
  have hlen : (0 < env.videoDevices.length) ↔ env.videoDevices ≠ [] :=
    List.length_pos
  by_cases hv : env.videoDevices = [] <;>
    cases h1 : which env "rpicam-vid" <;>
      cases h2 : which env "libcamera-vid" <;>
        simp [detect_camera_type, is_libcamera_available, get_rpicam_command,
          has_usb_camera, find_video_devices, h1, h2, hlen, hv]

/-- C5 counterexample: the claim asserts that for the USB backend, building
the pipeline fails when the required CLI (gst-launch-1.0) is absent from
the search path.  In the source `build_usb_camera_pipeline` performs no
such check: under an environment whose search path is empty, it still
returns a command list whose program is the absent gst-launch-1.0. -/
theorem C5_counterexample :
    which (Env.mk [] []) "gst-launch-1.0" = false ∧
    (build_usb_camera_pipeline "127.0.0.1" 5000 "/dev/video0"
        1280 720 30 500).head? = some "gst-launch-1.0" := by
  exact And.intro rfl rfl

/-- C5 amended: only `build_picamera_pipeline` checks its external CLI: it
fails (with the source's RuntimeError message) exactly when neither
rpicam-vid nor libcamera-vid is on the search path; `build_usb_camera_pipeline`
performs no availability check and always returns a command list whose
program is gst-launch-1.0, even when that tool is absent. -/
theorem C5_builder_tool_checks :
    (∀ (env : Env) (ip : String) (port w h f : Nat),
      ((∃ msg, build_picamera_pipeline env ip port w h f = Except.error msg) ↔
        get_rpicam_command env = none)) ∧
    (∀ (ip : String) (port : Nat) (d : String) (w h f b : Nat),
      (build_usb_camera_pipeline ip port d w h f b).head? =
        some "gst-launch-1.0") := by
  constructor
  · intro env ip port w h f
    cases hrp : get_rpicam_command env <;>
      simp [build_picamera_pipeline, hrp]
  · intro ip port d w h f b
    rfl

/-- C6: for every target address and port (and rpicam CLI resolved on the
path), `build_picamera_pipeline` produces exactly two stages; stage 1
requests indefinite duration ("-t" "0" right after the CLI name) and raw
H.264 output to its own standard output (ending "--codec" "h264"
"--output" "-"); stage 2 begins by reading standard input (fdsrc is the
first pipeline element after "gst-launch-1.0" "-e") and ends with the UDP
sink arguments naming the same target address and port. -/
theorem C6_picamera_two_stage_shape (env : Env) (ip : String)
    (port w h f : Nat) (c : String)
    (hrp : get_rpicam_command env = some c) :
    ∃ s1 s2, build_picamera_pipeline env ip port w h f = Except.ok [s1, s2] ∧
      s1.take 3 = [c, "-t", "0"] ∧
      (∃ u, s1 = u ++ ["--codec", "h264", "--output", "-"]) ∧
      s2.take 3 = ["gst-launch-1.0", "-e", "fdsrc"] ∧
      (∃ v, s2 = v ++ ["udpsink", "host=" ++ ip, "port=" ++ toString port]) := by
  refine ⟨[c, "-t", "0", "--width", toString w, "--height", toString h,
      "--framerate", toString f, "--inline", "-n", "--codec", "h264",
      "--output", "-"],
    ["gst-launch-1.0", "-e", "fdsrc", "!", "h264parse", "!",
      "rtph264pay", "config-interval=1", "pt=96", "!",
      "udpsink", "host=" ++ ip, "port=" ++ toString port],
    by simp [build_picamera_pipeline, hrp], rfl,
    ⟨[c, "-t", "0", "--width", toString w, "--height", toString h,
      "--framerate", toString f, "--inline", "-n"], rfl⟩, rfl,
    ⟨["gst-launch-1.0", "-e", "fdsrc", "!", "h264parse", "!",
      "rtph264pay", "config-interval=1", "pt=96", "!"], rfl⟩⟩

/-- C6 witness: instantiated for an environment carrying rpicam-vid and a
concrete target. -/
theorem C6_witness :
    ∃ s1 s2,
      build_picamera_pipeline (Env.mk ["rpicam-vid"] []) "192.168.1.100"
          5000 1280 720 30 = Except.ok [s1, s2] ∧
      s1.take 3 = ["rpicam-vid", "-t", "0"] ∧
      (∃ u, s1 = u ++ ["--codec", "h264", "--output", "-"]) ∧
      s2.take 3 = ["gst-launch-1.0", "-e", "fdsrc"] ∧
      (∃ v, s2 = v ++ ["udpsink", "host=" ++ "192.168.1.100",
        "port=" ++ toString 5000]) :=
  C6_picamera_two_stage_shape (Env.mk ["rpicam-vid"] []) "192.168.1.100"
    5000 1280 720 30 "rpicam-vid" (by decide)

/-- C9: the final stage of the Pi-camera pipeline and the single USB
pipeline stage end with the identical RTP/UDP tail
"rtph264pay" "config-interval=1" "pt=96" "!" "udpsink" "host=..." "port=..."
for the same target, so both backends emit the same on-wire framing
parameters. -/
theorem C9_common_rtp_udp_tail (env : Env) (ip : String)
    (port w h f : Nat) (d : String) (b : Nat) (s1 s2 : List String)
    (hbuild : build_picamera_pipeline env ip port w h f = Except.ok [s1, s2]) :
    (∃ u, s2 = u ++ ["rtph264pay", "config-interval=1", "pt=96", "!",
      "udpsink", "host=" ++ ip, "port=" ++ toString port]) ∧
    (∃ v, build_usb_camera_pipeline ip port d w h f b =
      v ++ ["rtph264pay", "config-interval=1", "pt=96", "!",
        "udpsink", "host=" ++ ip, "port=" ++ toString port]) := by
  constructor
  · cases hrp : get_rpicam_command env with
    | none => simp [build_picamera_pipeline, hrp] at hbuild
    | some c =>
        simp only [build_picamera_pipeline, hrp, Except.ok.injEq,
          List.cons.injEq, and_true] at hbuild
        obtain ⟨-, hs2⟩ := hbuild
        refine ⟨["gst-launch-1.0", "-e", "fdsrc", "!", "h264parse", "!"], ?_⟩
        exact hs2.symm
  · exact ⟨["gst-launch-1.0", "-e", "v4l2src", "device=" ++ d, "!",
      "video/x-raw,width=" ++ toString w ++ ",height=" ++ toString h ++
        ",framerate=" ++ toString f ++ "/1",
      "!", "videoconvert", "!", "x264enc", "bitrate=" ++ toString b,
      "tune=zerolatency", "speed-preset=superfast", "!"], rfl⟩

/-- C9 witness: instantiated at a concrete environment, target and device. -/
theorem C9_witness :
    (∃ u, ["gst-launch-1.0", "-e", "fdsrc", "!", "h264parse", "!",
        "rtph264pay", "config-interval=1", "pt=96", "!",
        "udpsink", "host=" ++ "10.0.0.2", "port=" ++ toString 9000] =
      u ++ ["rtph264pay", "config-interval=1", "pt=96", "!",
        "udpsink", "host=" ++ "10.0.0.2", "port=" ++ toString 9000]) ∧
    (∃ v, build_usb_camera_pipeline "10.0.0.2" 9000 "/dev/video0"
        1280 720 30 500 =
      v ++ ["rtph264pay", "config-interval=1", "pt=96", "!",
        "udpsink", "host=" ++ "10.0.0.2", "port=" ++ toString 9000]) :=
  C9_common_rtp_udp_tail (Env.mk ["rpicam-vid"] []) "10.0.0.2" 9000
    1280 720 30 "/dev/video0" 500 _ _ (by rfl)

/-! ## Claims about the facade operations -/

/-- C1: calling `start_stream` while the manager is already streaming is a
no-op that logs a warning, launches no new process (the world, including
its pid counter, is unchanged) and leaves the active handle set identical
to what it was before the call. -/
theorem C1_start_stream_noop_when_streaming (m : CameraManager) (w : World)
    (h : is_streaming w m = true) :
    start_stream m w = (Except.ok (m, w), [LogMsg.warnAlreadyRunning]) := by
  simp [start_stream, h]

/-- C1 witness: a manager with one live pipeline process. -/
theorem C1_witness :
    start_stream
        {makeManager (Env.mk [] ["/dev/video0"]) "127.0.0.1" 5000
            (some CameraType.USB_CAMERA) "/dev/video0" 1280 720 30 500 true
          with processes := [⟨7, ["gst-launch-1.0"], true, true⟩]}
        (World.mk (Env.mk [] ["/dev/video0"]) 8 [] (fun _ => true)
          (fun _ => true)) =
      (Except.ok
        ({makeManager (Env.mk [] ["/dev/video0"]) "127.0.0.1" 5000
            (some CameraType.USB_CAMERA) "/dev/video0" 1280 720 30 500 true
          with processes := [⟨7, ["gst-launch-1.0"], true, true⟩]},
         World.mk (Env.mk [] ["/dev/video0"]) 8 [] (fun _ => true)
           (fun _ => true)),
       [LogMsg.warnAlreadyRunning]) :=
  C1_start_stream_noop_when_streaming _ _ rfl

/-- C8: `start_stream` on a non-streaming manager whose backend is NONE
raises the source's RuntimeError; on that error path no process is
launched, no watchdog thread is started, and the manager and world are
returned unchanged (in particular the manager remains not streaming). -/
theorem C8_start_stream_none_backend (m : CameraManager) (w : World)
    (hns : is_streaming w m = false)
    (hty : m.camera_type = CameraType.NONE) :
    start_stream m w =
      (Except.error
        ("No camera detected. Attach a USB webcam or enable the Pi Camera.",
          m, w), []) := by
  simp [start_stream, hns, hty]

/-- C8 witness: a freshly constructed manager in an environment with no
camera CLI and no video devices. -/
theorem C8_witness :
    start_stream
        (makeManager (Env.mk [] []) "127.0.0.1" 5000 none "/dev/video0"
          1280 720 30 500 true)
        (World.mk (Env.mk [] []) 1 [] (fun _ => true) (fun _ => true)) =
      (Except.error
        ("No camera detected. Attach a USB webcam or enable the Pi Camera.",
          makeManager (Env.mk [] []) "127.0.0.1" 5000 none "/dev/video0"
            1280 720 30 500 true,
          World.mk (Env.mk [] []) 1 [] (fun _ => true) (fun _ => true)),
        []) :=
  C8_start_stream_none_backend _ _ rfl rfl

/-- C10: `stop_stream` on a manager with an empty process list (a freshly
constructed manager, or one already stopped) returns without raising,
leaves the process list empty and `is_streaming` false, and a second
`stop_stream` on the resulting manager is a fixed point. -/
theorem C10_stop_stream_safe_idempotent (m : CameraManager) (w : World)
    (h : m.processes = []) :
    ∃ tr,
      stop_stream m w =
        (Except.ok
          ({m with stopEvent := true, processes := [], watchdogRunning := false},
            w), tr) ∧
      is_streaming w
        {m with stopEvent := true, processes := [], watchdogRunning := false} =
        false ∧
      stop_stream
          {m with stopEvent := true, processes := [], watchdogRunning := false}
          w =
        (Except.ok
          ({m with stopEvent := true, processes := [], watchdogRunning := false},
            w),
          [Event.setStopEvent, Event.logStopped]) := by
  obtain ⟨ip, port, dev, wd, ht, fp, br, ar, ty, ps, wdr, se, ra⟩ := m
  obtain ⟨env, np, dead, sg, kl⟩ := w
  subst h
  cases wdr <;> exact ⟨_, rfl, rfl, rfl⟩

/-- C10 witness: a freshly constructed manager that was never started. -/
theorem C10_witness :
    ∃ tr,
      stop_stream
          (makeManager (Env.mk ["rpicam-vid"] []) "127.0.0.1" 5000 none
            "/dev/video0" 1280 720 30 500 true)
          (World.mk (Env.mk ["rpicam-vid"] []) 1 [] (fun _ => true)
            (fun _ => true)) =
        (Except.ok
          ({makeManager (Env.mk ["rpicam-vid"] []) "127.0.0.1" 5000 none
              "/dev/video0" 1280 720 30 500 true
            with stopEvent := true, processes := [], watchdogRunning := false},
           World.mk (Env.mk ["rpicam-vid"] []) 1 [] (fun _ => true)
             (fun _ => true)), tr) ∧
      is_streaming
        (World.mk (Env.mk ["rpicam-vid"] []) 1 [] (fun _ => true)
          (fun _ => true))
        {makeManager (Env.mk ["rpicam-vid"] []) "127.0.0.1" 5000 none
            "/dev/video0" 1280 720 30 500 true
          with stopEvent := true, processes := [], watchdogRunning := false} =
        false ∧
      stop_stream
          {makeManager (Env.mk ["rpicam-vid"] []) "127.0.0.1" 5000 none
              "/dev/video0" 1280 720 30 500 true
            with stopEvent := true, processes := [], watchdogRunning := false}
          (World.mk (Env.mk ["rpicam-vid"] []) 1 [] (fun _ => true)
            (fun _ => true)) =
        (Except.ok
          ({makeManager (Env.mk ["rpicam-vid"] []) "127.0.0.1" 5000 none
              "/dev/video0" 1280 720 30 500 true
            with stopEvent := true, processes := [], watchdogRunning := false},
           World.mk (Env.mk ["rpicam-vid"] []) 1 [] (fun _ => true)
             (fun _ => true)),
          [Event.setStopEvent, Event.logStopped]) :=
  C10_stop_stream_safe_idempotent _ _ rfl

/-- C7 counterexample: the claim says termination processes the
still-running handles in reverse launch order and that a handle surviving
the forced kill does not prevent a normal return.  With three handles
(pids 0, 1, 2 in launch order; pid 1 survives both signals) the source's
`_terminate_processes` signals pid 0 first — launch order, not reverse
(reverse order would signal pid 2 first) — and the kill-surviving pid 1
makes the second bounded wait raise, so the pass aborts (ok = false)
without ever processing pid 2. -/
theorem C7_counterexample :
    terminate_processes []
        [⟨0, [], true, true⟩, ⟨1, [], false, false⟩, ⟨2, [], true, true⟩] =
      ⟨false, [0],
        [Event.sigint 0, Event.waitGrace 0 3,
          Event.sigint 1, Event.waitGrace 1 3,
          Event.kill 1, Event.waitKill 1 2]⟩ ∧
    (terminate_processes []
        [⟨0, [], true, true⟩, ⟨1, [], false, false⟩,
          ⟨2, [], true, true⟩]).trace.head? ≠ some (Event.sigint 2) := by
  constructor
  · rfl
  · decide

/-- C7 amended: termination requests graceful shutdown of every
still-running handle in launch order (not reverse), waiting up to 3
seconds per handle, escalating to SIGKILL plus a further bounded 2-second
wait only for a handle that did not exit on SIGINT; when no handle
survives the kill the pass returns normally with exactly that action
ladder per handle, and a handle that does survive the forced kill makes
the bounded wait raise, aborting the pass without processing the
remaining handles. -/
theorem C7_terminate_launch_order :
    (∀ (dead : List Nat) (ps : List PHandle),
      (∀ p ∈ ps, p.exitsOnSigint = true ∨ p.exitsOnKill = true) →
      (ps.map PHandle.pid).Nodup →
      (terminate_processes dead ps).ok = true ∧
      (terminate_processes dead ps).trace = ps.flatMap (termEventsFor dead)) ∧
    (∀ (dead : List Nat) (p : PHandle) (ps : List PHandle),
      p.pid ∉ dead → p.exitsOnSigint = false → p.exitsOnKill = false →
      terminate_processes dead (p :: ps) =
        ⟨false, dead,
          [Event.sigint p.pid, Event.waitGrace p.pid 3,
            Event.kill p.pid, Event.waitKill p.pid 2]⟩) := by
  constructor
  · intro dead ps
    induction ps generalizing dead with
    | nil => intro _ _; exact ⟨rfl, rfl⟩
    | cons q ps ih =>
        intro hresp hnd
        rw [List.map_cons, List.nodup_cons] at hnd
        obtain ⟨hqnotin, hndtail⟩ := hnd
        have hresptail : ∀ p ∈ ps,
            p.exitsOnSigint = true ∨ p.exitsOnKill = true :=
          fun p hp => hresp p (List.mem_cons_of_mem _ hp)
        by_cases hd : q.pid ∈ dead
        · obtain ⟨hok, htr⟩ := ih dead hresptail hndtail
          exact ⟨by simpa [terminate_processes, hd] using hok,
            by simp [terminate_processes, hd, htr, List.flatMap_cons,
              termEventsFor]⟩
        · cases hsig : q.exitsOnSigint
          · cases hkill : q.exitsOnKill
            · rcases hresp q (List.mem_cons_self _ _) with h | h
              · rw [hsig] at h; cases h
              · rw [hkill] at h; cases h
            · obtain ⟨hok, htr⟩ := ih (q.pid :: dead) hresptail hndtail
              rw [flatMap_termEventsFor_cons q.pid ps dead hqnotin] at htr
              exact ⟨by simpa [terminate_processes, hd, hsig, hkill]
                  using hok,
                by simp [terminate_processes, hd, hsig, hkill, htr,
                  List.flatMap_cons, termEventsFor]⟩
          · obtain ⟨hok, htr⟩ := ih (q.pid :: dead) hresptail hndtail
            rw [flatMap_termEventsFor_cons q.pid ps dead hqnotin] at htr
            exact ⟨by simpa [terminate_processes, hd, hsig] using hok,
              by simp [terminate_processes, hd, hsig, htr,
                List.flatMap_cons, termEventsFor]⟩
  · intro dead p ps hd hsig hkill
    simp [terminate_processes, hd, hsig, hkill]

/-- C7 witness: both clauses at concrete inputs — a normal pass over two
live handles (pids 4 then 9, one needing the kill escalation), and an
aborting pass headed by a kill-surviving handle. -/
theorem C7_witness :
    ((terminate_processes []
        [⟨4, [], true, true⟩, ⟨9, [], false, true⟩]).ok = true ∧
      (terminate_processes []
          [⟨4, [], true, true⟩, ⟨9, [], false, true⟩]).trace =
        [⟨4, [], true, true⟩, ⟨9, [], false, true⟩].flatMap
          (termEventsFor ([] : List Nat))) ∧
    terminate_processes [] [⟨3, [], false, false⟩] =
      ⟨false, [],
        [Event.sigint 3, Event.waitGrace 3 3,
          Event.kill 3, Event.waitKill 3 2]⟩ :=
  ⟨C7_terminate_launch_order.1 []
      [⟨4, [], true, true⟩, ⟨9, [], false, true⟩]
      (by decide) (by decide),
    C7_terminate_launch_order.2 [] ⟨3, [], false, false⟩ []
      (by decide) rfl rfl⟩

/-! ## Claims about the watchdog loop -/

/-- C3: the reconnect-attempt counter is never decreased (in particular a
successful relaunch does not reset it; a healthy poll iteration simply
returns to polling with the state unchanged), and six consecutive
process-death observations drive the watchdog to the exhausted terminal
state after exactly 5 relaunch attempts, with no further relaunch no
matter how many more death observations follow. -/
theorem C3_watchdog_attempt_ceiling :
    (∀ (autoRec : Bool) (s : WdState) (obs : List Obs),
      s.attempts ≤ (watchdog_run autoRec s obs).1.attempts) ∧
    (∀ (autoRec : Bool) (s : WdState) (rest : List Obs),
      watchdog_run autoRec s (Obs.mk false false true :: rest) =
        watchdog_run autoRec s rest) ∧
    (∀ n : Nat,
      watchdog_run true (WdState.mk 0 0)
          (List.replicate (6 + n) (Obs.mk false false false)) =
        (WdState.mk 6 5, some WdExit.exhausted)) := by
  refine ⟨?_, ?_, ?_⟩
  · intro autoRec s obs
    induction obs generalizing s with
    | nil => exact Nat.le_refl _
    | cons o rest ih =>
        cases h1 : o.stopAtTop
        · cases h2 : o.stopAfterSleep
          · cases h3 : o.streaming
            · cases autoRec
              · simp [watchdog_run, h1, h2, h3]
              · by_cases h5 : MAX_RECONNECT_ATTEMPTS < s.attempts + 1
                · simp only [watchdog_run, h1, h2, h3, h5, Bool.not_true,
                    if_true, if_false, Bool.false_eq_true, ite_false]
                  simp
                · have hrec := ih ⟨s.attempts + 1, s.relaunches + 1⟩
                  simp only [watchdog_run, h1, h2, h3, h5, Bool.not_true,
                    if_false, Bool.false_eq_true, ite_false]
                  exact Nat.le_trans (Nat.le_succ _) hrec
            · simpa [watchdog_run, h1, h2, h3] using ih s
          · simp [watchdog_run, h1, h2]
        · simp [watchdog_run, h1]
  · intro autoRec s rest
    simp [watchdog_run]
  · intro n
    rw [List.replicate_add]
    show watchdog_run true (WdState.mk 0 0) _ = _
    norm_num [watchdog_run, MAX_RECONNECT_ATTEMPTS, List.replicate_succ]

/-! ## The stop/watchdog interleaving invariant -/

/-- `StopInv` is preserved by every step of either thread and of the
environment. -/
theorem stopInv_step {p : PHandle} {c c' : Conf} (hst : Step c c')
    (hinv : StopInv p c) : StopInv p c' := by
  obtain ⟨haux, htr⟩ := hinv
  cases hst with
  | mSet hm =>
      refine ⟨fun hw => haux hw, ?_⟩
      simp only [mainTracks, hm] at htr
      simpa [mainTracks] using htr
  | mSnap hm =>
      refine ⟨fun hw => haux hw, ?_⟩
      simp only [mainTracks, hm] at htr
      simpa [mainTracks] using htr
  | mSkip i hi hm hd =>
      refine ⟨fun hw => haux hw, ?_⟩
      simp only [mainTracks, hm] at htr
      simp only [mainTracks]
      rcases htr with hdead | hdrop
      · exact Or.inl hdead
      · rw [List.drop_eq_getElem_cons hi] at hdrop
        rcases List.mem_cons.mp hdrop with hpq | hps
        · exact Or.inl (hpq ▸ hd)
        · exact Or.inr hps
  | mTermSig i hi hm hd hsig =>
      refine ⟨fun hw => haux hw, ?_⟩
      simp only [mainTracks, hm] at htr
      simp only [mainTracks]
      rcases htr with hdead | hdrop
      · exact Or.inl (List.mem_cons_of_mem _ hdead)
      · rw [List.drop_eq_getElem_cons hi] at hdrop
        rcases List.mem_cons.mp hdrop with hpq | hps
        · exact Or.inl (by rw [hpq]; exact List.mem_cons_self _ _)
        · exact Or.inr hps
  | mTermKill i hi hm hd hsig hkill =>
      refine ⟨fun hw => haux hw, ?_⟩
      simp only [mainTracks, hm] at htr
      simp only [mainTracks]
      rcases htr with hdead | hdrop
      · exact Or.inl (List.mem_cons_of_mem _ hdead)
      · rw [List.drop_eq_getElem_cons hi] at hdrop
        rcases List.mem_cons.mp hdrop with hpq | hps
        · exact Or.inl (by rw [hpq]; exact List.mem_cons_self _ _)
        · exact Or.inr hps
  | mTermFail i hi hm hd hsig hkill =>
      exact ⟨fun hw => haux hw, by simp [mainTracks]⟩
  | mLoopDone i hm hlen =>
      refine ⟨fun hw => haux hw, ?_⟩
      simp only [mainTracks, hm] at htr
      simp only [mainTracks]
      rcases htr with hdead | hdrop
      · exact hdead
      · rw [List.drop_eq_nil_of_le hlen] at hdrop
        cases hdrop
  | mClear hm =>
      refine ⟨fun _ => rfl, ?_⟩
      simp only [mainTracks, hm] at htr
      simpa [mainTracks] using htr
  | mJoin hm =>
      refine ⟨fun hw => haux hw, ?_⟩
      simp only [mainTracks, hm] at htr
      simpa [mainTracks] using htr
  | wTopStop hw hev => exact ⟨by simp, htr⟩
  | wTopSleep hw hev => exact ⟨by simp, htr⟩
  | wSleptStop hw hev => exact ⟨by simp, htr⟩
  | wSleptGo hw hev => exact ⟨by simp, htr⟩
  | wAlive hw hstr => exact ⟨by simp, htr⟩
  | wDeadNoRec hw hstr har => exact ⟨by simp, htr⟩
  | wDeadExceed hw hstr har hx => exact ⟨by simp, htr⟩
  | wDeadRetry hw hstr har hx => exact ⟨by simp, htr⟩
  | wWake hw => exact ⟨by simp, htr⟩
  | wLaunchTermOk hw hok =>
      refine ⟨fun _ => rfl, ?_⟩
      cases hml : c.mainLoc <;>
        simp only [mainTracks, hml] at htr ⊢
      case atStart =>
        rcases htr with hdead | hmem
        · exact Or.inl (terminate_dead_mono _ _ _ hdead)
        · exact Or.inl (terminate_complete _ _ hok p hmem)
      case atSnap =>
        rcases htr with hdead | hmem
        · exact Or.inl (terminate_dead_mono _ _ _ hdead)
        · exact Or.inl (terminate_complete _ _ hok p hmem)
      case atLoop i =>
        rcases htr with hdead | hmem
        · exact Or.inl (terminate_dead_mono _ _ _ hdead)
        · exact Or.inr hmem
      case atClear => exact terminate_dead_mono _ _ _ htr
      case atJoin => exact terminate_dead_mono _ _ _ htr
      case finished => exact terminate_dead_mono _ _ _ htr
  | wLaunchTermFail hw hok =>
      refine ⟨by simp, ?_⟩
      cases hml : c.mainLoc <;>
        simp only [mainTracks, hml] at htr ⊢
      case atStart =>
        rcases htr with hdead | hmem
        · exact Or.inl (terminate_dead_mono _ _ _ hdead)
        · exact Or.inr hmem
      case atSnap =>
        rcases htr with hdead | hmem
        · exact Or.inl (terminate_dead_mono _ _ _ hdead)
        · exact Or.inr hmem
      case atLoop i =>
        rcases htr with hdead | hmem
        · exact Or.inl (terminate_dead_mono _ _ _ hdead)
        · exact Or.inr hmem
      case atClear => exact terminate_dead_mono _ _ _ htr
      case atJoin => exact terminate_dead_mono _ _ _ htr
      case finished => exact terminate_dead_mono _ _ _ htr
  | wSpawn hs hw =>
      refine ⟨by simp, ?_⟩
      have hempty : c.handles = [] := haux hw
      cases hml : c.mainLoc <;>
        simp only [mainTracks, hml] at htr ⊢
      case atStart =>
        rcases htr with hdead | hmem
        · exact Or.inl hdead
        · rw [hempty] at hmem; cases hmem
      case atSnap =>
        rcases htr with hdead | hmem
        · exact Or.inl hdead
        · rw [hempty] at hmem; cases hmem
      case atLoop i => exact htr
      case atClear => exact htr
      case atJoin => exact htr
      case finished => exact htr
  | envDie q =>
      refine ⟨fun hw => haux hw, ?_⟩
      cases hml : c.mainLoc <;>
        simp only [mainTracks, hml] at htr ⊢
      case atStart =>
        rcases htr with hdead | hmem
        · exact Or.inl (List.mem_cons_of_mem _ hdead)
        · exact Or.inr hmem
      case atSnap =>
        rcases htr with hdead | hmem
        · exact Or.inl (List.mem_cons_of_mem _ hdead)
        · exact Or.inr hmem
      case atLoop i =>
        rcases htr with hdead | hmem
        · exact Or.inl (List.mem_cons_of_mem _ hdead)
        · exact Or.inr hmem
      case atClear => exact List.mem_cons_of_mem _ htr
      case atJoin => exact List.mem_cons_of_mem _ htr
      case finished => exact List.mem_cons_of_mem _ htr

/-- `StopInv` holds along every execution. -/
theorem stopInv_reach {p : PHandle} {c c' : Conf}
    (hreach : Relation.ReflTransGen Step c c') (hinv : StopInv p c) :
    StopInv p c' := by
  induction hreach with
  | refl => exact hinv
  | tail _ hstep ih => exact stopInv_step hstep ih

/-- C2 counterexample: the claim states the order signal → bounded 5-second
watchdog join → terminate handles.  In the source, `stop_stream` terminates
the handles first and joins the watchdog last: on a manager with one live
handle (pid 1) and a running watchdog, the observed trace has the SIGINT
before the join, and no join event ever precedes the SIGINT. -/
theorem C2_counterexample :
    (stop_stream
        {makeManager (Env.mk [] ["/dev/video0"]) "127.0.0.1" 5000
            (some CameraType.USB_CAMERA) "/dev/video0" 1280 720 30 500 true with
          processes := [⟨1, ["gst-launch-1.0"], true, true⟩]
          watchdogRunning := true}
        (World.mk (Env.mk [] ["/dev/video0"]) 2 [] (fun _ => true)
          (fun _ => true))).2 =
      [Event.setStopEvent, Event.sigint 1, Event.waitGrace 1 3,
        Event.joinWatchdog 5, Event.logStopped] ∧
    ¬ ∃ i j : Fin 5, i < j ∧
      [Event.setStopEvent, Event.sigint 1, Event.waitGrace 1 3,
        Event.joinWatchdog 5, Event.logStopped].get i = Event.joinWatchdog 5 ∧
      [Event.setStopEvent, Event.sigint 1, Event.waitGrace 1 3,
        Event.joinWatchdog 5, Event.logStopped].get j = Event.sigint 1 := by
  exact ⟨rfl, by decide⟩

/-- C2 amended: `stop_stream` signals the watchdog to terminate, terminates
all process handles, and then waits for the watchdog with a bounded join of
5 seconds (first clause: the exact trace when termination returns
normally).  Second clause: in every interleaving with the watchdog thread
— including a stop issued while the watchdog is sleeping out its reconnect
delay — once `stop_stream` reaches its normal return, every handle that
was in the manager's process list and alive at the moment of the call is
dead. -/
theorem C2_stop_signals_terminates_joins :
    (∀ (m : CameraManager) (w : World),
      m.watchdogRunning = true →
      (terminate_processes w.dead m.processes).ok = true →
      (stop_stream m w).2 =
        [Event.setStopEvent] ++
          (terminate_processes w.dead m.processes).trace ++
          [Event.joinWatchdog 5, Event.logStopped]) ∧
    (∀ (c0 c : Conf) (p : PHandle),
      c0.mainLoc = MLoc.atStart →
      c0.wdLoc ≠ WLoc.launchSpawn →
      p ∈ c0.handles →
      p.pid ∉ c0.dead →
      Relation.ReflTransGen Step c0 c →
      c.mainLoc = MLoc.finished →
      p.pid ∈ c.dead) := by
  constructor
  · intro m w h1 h2
    simp [stop_stream, h1, h2]
  · intro c0 c p hm hwd hmem _ hreach hfin
    have hinv0 : StopInv p c0 :=
      ⟨fun hw => absurd hw hwd,
        by simp only [mainTracks, hm]; exact Or.inr hmem⟩
    have hinv := stopInv_reach hreach hinv0
    have htr := hinv.2
    simpa [mainTracks, hfin] using htr

/-- C2 witness: the trace clause on a manager with one live handle (pid 2)
and a running watchdog, and the interleaving clause along the execution
where the caller runs stop to completion while the watchdog has already
exited: pid 1 is dead in the final configuration. -/
theorem C2_witness :
    (stop_stream
        {makeManager (Env.mk [] ["/dev/video0"]) "127.0.0.1" 5000
            (some CameraType.USB_CAMERA) "/dev/video0" 1280 720 30 500 true with
          processes := [⟨2, ["gst-launch-1.0"], true, true⟩]
          watchdogRunning := true}
        (World.mk (Env.mk [] ["/dev/video0"]) 3 [] (fun _ => true)
          (fun _ => true))).2 =
      [Event.setStopEvent, Event.sigint 2, Event.waitGrace 2 3,
        Event.joinWatchdog 5, Event.logStopped] ∧
    (⟨1, [], true, true⟩ : PHandle).pid ∈
      (Conf.mk [] [1] true [⟨1, [], true, true⟩] 0 true MLoc.finished
        WLoc.finished).dead := by
  constructor
  · exact C2_stop_signals_terminates_joins.1 _ _ rfl rfl
  · exact C2_stop_signals_terminates_joins.2
      (Conf.mk [⟨1, [], true, true⟩] [] false [] 0 true MLoc.atStart
        WLoc.finished)
      (Conf.mk [] [1] true [⟨1, [], true, true⟩] 0 true MLoc.finished
        WLoc.finished)
      ⟨1, [], true, true⟩ rfl (by decide) (by decide) (by decide)
      (Relation.ReflTransGen.head (Step.mSet _ rfl)
        (Relation.ReflTransGen.head (Step.mSnap _ rfl)
          (Relation.ReflTransGen.head
            (Step.mTermSig _ 0 (by decide) rfl (by decide) (by decide))
            (Relation.ReflTransGen.head (Step.mLoopDone _ 1 rfl (by decide))
              (Relation.ReflTransGen.head (Step.mClear _ rfl)
                (Relation.ReflTransGen.head (Step.mJoin _ rfl)
                  Relation.ReflTransGen.refl))))))
      rfl

end Falconia
